import Mathlib

/-!
Verification of the sitemap-parser service (src/main.go) against its
natural-language specification.

The Go program is shallowly embedded: external effects (the HTTP client and
the stdlib XML / URL decoders) become oracle functions carried in an
environment record, and the program's own control flow is translated
function-by-function.  Network access is made observable by returning, next
to the result, the trace of request URLs issued, in order.  The recursive
resolver is embedded with a fuel parameter (the Go code has no termination
guard); all theorems hold for every fuel large enough to cover the
hypotheses, so the fuel is an artifact of totality only.
-/

namespace SitemapParser

/-! ### Go `strings` helpers, modelled on character lists

Go's `strings.HasPrefix` and `strings.TrimPrefix` operate on bytes; on the
ASCII prefixes used by the program this coincides with the character-list
model below.  `strings.Split(s, "\n")` is modelled by `splitNl` on the
character list: fields between newline separators, an empty input giving
one empty field, a trailing newline giving a final empty field. -/

/-- Model of Go `strings.HasPrefix s pre`. -/
def goHasPfx (s p : String) : Bool :=
  p.data.isPrefixOf s.data

/-- Model of Go `strings.TrimPrefix s pre`: drop the prefix when present,
otherwise return the string unchanged. -/
def goTrimPfx (s p : String) : String :=
  if goHasPfx s p then ⟨s.data.drop p.data.length⟩ else s

/-- Model of Go `strings.Split(s, "\n")`: the newline-separated fields, in
order. -/
def splitNl : List Char → List String
  | [] => [""]
  | c :: rest =>
    match splitNl rest with
    | [] => [⟨[c]⟩]
    | w :: ws =>
      if c = '\n' then "" :: w :: ws else ⟨c :: w.data⟩ :: ws

/-! ### `parseSitemapFromRobotsTxt` (src/main.go lines 34-52) -/

/-- The loop of `parseSitemapFromRobotsTxt`: scan the lines in order; at the
first line starting with `Sitemap:` return it with the leading
`Sitemap: ` trimmed; if no line matches return the empty string. -/
def robotsLines : List String → String
  | [] => ""
  | line :: rest =>
    if goHasPfx line "Sitemap:" then goTrimPfx line "Sitemap: "
    else robotsLines rest

/-- `parseSitemapFromRobotsTxt`: split the body on newlines and scan. -/
def parseSitemapFromRobotsTxt (robotsTxt : String) : String :=
  robotsLines (splitNl robotsTxt.data)

/-! ### Locator environment -/

/-- The subset of Go's `url.URL` the program reads: only the `Host` field. -/
structure GoURL where
  Host : String

/-- A response of the locator's HTTP client: Go exposes the status code and a
body whose read may itself fail. -/
structure GoResp where
  statusCode : Nat
  readBody : Except String String

/-- Oracles for the locator: `urlParse` models `url.Parse` (`none` is a parse
error), `fetchL` models `client.Get` with the 3-second-timeout client
(`Except.error` is a low-level request error). -/
structure LEnv where
  urlParse : String → Option GoURL
  fetchL : String → Except String GoResp

/-! ### `isValidDomain` / `extractDomain` (src/main.go lines 57-99) -/

/-- The scheme normalization both `isValidDomain` and `extractDomain`
perform (lines 65-67 and 88-90 repeat this snippet verbatim): prepend
`http://` when neither `http://` nor `https://` is already a prefix. -/
def normalizeScheme (domain : String) : String :=
  if !goHasPfx domain "http://" && !goHasPfx domain "https://" then
    "http://" ++ domain
  else domain

/-- `isValidDomain` (lines 57-76): empty input is invalid; after scheme
normalization the string must parse and have a non-empty `Host`.  Go's
`len(domain) == 0` test is the test `domain = ""`. -/
def isValidDomain (env : LEnv) (domain : String) : Bool :=
  if domain = "" then false
  else
    match env.urlParse (normalizeScheme domain) with
    | none => false
    | some u => u.Host != ""

/-- `extractDomain` (lines 81-99): same normalization, returning the parsed
`Host` (or `""` on empty input / parse error). -/
def extractDomain (env : LEnv) (domain : String) : String :=
  if domain = "" then ""
  else
    match env.urlParse (normalizeScheme domain) with
    | none => ""
    | some u => u.Host

/-! ### `getSitemapURLFromDomain` (src/main.go lines 104-197) -/

/-- The fixed candidate list of lines 139-175, transcribed verbatim in
order. -/
def sitemapLocations : List String :=
  ["/test.xml",
   "/sitemap.xml",
   "/sitemap1.xml",
   "/sitemap.txt",
   "/sitemap_index.xml",
   "/sitemap/",
   "/sitemap",
   "/sitemap-index.xml",
   "/sitemaps/",
   "/sitemaps",
   "/site-map",
   "/sitemap-indexes/",
   "/post-sitemap.xml",
   "/page-sitemap.xml",
   "/category-sitemap.xml",
   "/tag-sitemap.xml",
   "/pages-sitemap.xml",
   "/blog-pages-sitemap.xml",
   "/member-profile-sitemap.xml",
   "/dynamic-pages-sitemap.xml",
   "/other-pages-sitemap.xml",
   "/sitemap.xml.gz",
   "/sitemapindex.xml",
   "/sitemap_index.xml.gz",
   "/sitemap/index.xml",
   "/sitemap.xml",
   "/sitemap_map.html",
   "/wp-sitemap.xml",
   "/other-pages-sitemap.xml",
   "/category-sitemap.xml",
   "/tag-sitemap.xml",
   "/author-sitemap.xml",
   "/post-sitemap",
   "/sitemaps-2-sitemap.xml",
   "/page-sitemap"]

/-- The candidate-probing loop (lines 178-193).  For each location in order:
build `https://<host><path>`, GET it; a request error aborts with that error;
a 200 response returns the constructed URL; any other status advances.  The
second component is the trace of URLs requested.  Exhaustion yields the
`Couldn't find sitemap` error of line 196. -/
def probeLoop (env : LEnv) (host : String) : List String → Except String String × List String
  | [] => (.error ("Couldn't find sitemap for " ++ host), [])
  | loc :: rest =>
    let url := "https://" ++ host ++ loc
    match env.fetchL url with
    | .error e => (.error e, [url])
    | .ok resp =>
      if resp.statusCode == 200 then (.ok url, [url])
      else
        let r := probeLoop env host rest
        (r.1, url :: r.2)

/-- Lines 113-196 of `getSitemapURLFromDomain`: after the reassignment
`domain = extractDomain(domain)` on line 111 the function only depends on
the extracted host, so that part is factored out here.  The robots probe
(lines 117-136): a request error is fatal; a 200 response with a non-empty
declared sitemap address returns it immediately; otherwise candidate
probing runs (lines 178-196). -/
def locateFromHost (env : LEnv) (host : String) :
    Except String String × List String :=
  let robotsURL := "https://" ++ host ++ "/robots.txt"
  match env.fetchL robotsURL with
  | .error e => (.error e, [robotsURL])
  | .ok resp =>
    if resp.statusCode == 200 then
      match resp.readBody with
      | .error e => (.error e, [robotsURL])
      | .ok robotsTxt =>
        let sitemapLoc := parseSitemapFromRobotsTxt robotsTxt
        if sitemapLoc != "" then (.ok sitemapLoc, [robotsURL])
        else
          let r := probeLoop env host sitemapLocations
          (r.1, robotsURL :: r.2)
    else
      let r := probeLoop env host sitemapLocations
      (r.1, robotsURL :: r.2)

/-- `getSitemapURLFromDomain` (lines 104-197), with the request trace as
second component.  Validation failure produces Go's
`Failed to validate <domain>` error (embedding the raw input) before any
fetch. -/
def getSitemapURLFromDomain (env : LEnv) (domain : String) :
    Except String String × List String :=
  if isValidDomain env domain = false then
    (.error ("Failed to validate " ++ domain), [])
  else
    locateFromHost env (extractDomain env domain)

/-! ### Resolver data model (src/main.go lines 16-29) -/

/-- `SitemapURL`: a `url` element's `loc` content. -/
structure SitemapURL where
  Loc : String
deriving DecidableEq

/-- `SitemapSitemap`: a `sitemap` (index child) element's `loc` content. -/
structure SitemapSitemap where
  Loc : String
deriving DecidableEq

/-- `Sitemap`: the shared wire shape, holding both lists. -/
structure Sitemap where
  URLs : List SitemapURL
  Sitemaps : List SitemapSitemap
deriving DecidableEq

/-- Resolver errors.  In Go these are untyped `error` values; the constructor
records the spec's kind and the underlying message, so that propagation can
be stated exactly.  `fuelExhausted` is only the embedding's totality
artifact. -/
inductive RErr where
  | fetchFailed (e : String)
  | parseFailed (e : String)
  | fuelExhausted
deriving DecidableEq

/-- Oracles for the resolver: `fetchR` models `http.Get` plus the body read
(lines 205-214; an error is a transport/read failure), `unmarshal` models
`xml.Unmarshal` into the `Sitemap` shape (lines 216-220). -/
structure REnv where
  fetchR : String → Except String String
  unmarshal : String → Except String Sitemap

/-! ### `parseSitemap` (src/main.go lines 204-249) -/

/-- The index-branch loop (lines 238-246).  Go pre-allocates
`urls := make([]string, n)` (here the caller passes `List.replicate n ""`),
then for child `i`: recursively resolve it (an error aborts with that exact
error), overwrite slot `i` with the marker `Sitemap index: <loc>`, and append
the child's resolved URLs at the tail. -/
def indexLoop (recur : String → Except RErr (List String)) :
    List String → Nat → List SitemapSitemap → Except RErr (List String)
  | urls, _, [] => .ok urls
  | urls, i, s :: rest =>
    match recur s.Loc with
    | .error e => .error e
    | .ok subUrls =>
        indexLoop recur (urls.set i ("Sitemap index: " ++ s.Loc) ++ subUrls)
          (i + 1) rest

/-- One unfolding of `parseSitemap` (lines 204-249), the recursive call
abstracted as `recur`: fetch the body, unmarshal it; if the `url` list is
non-empty return its `loc`s (lines 223-229); otherwise unmarshal again (the
source decodes the same body a second time, lines 232-236) and run the
index loop over the `sitemap` children. -/
def parseStep (env : REnv) (recur : String → Except RErr (List String))
    (url : String) : Except RErr (List String) :=
  match env.fetchR url with
  | .error e => .error (.fetchFailed e)
  | .ok body =>
    match env.unmarshal body with
    | .error e => .error (.parseFailed e)
    | .ok sitemap =>
      if sitemap.URLs.length > 0 then
        .ok (sitemap.URLs.map SitemapURL.Loc)
      else
        match env.unmarshal body with
        | .error e => .error (.parseFailed e)
        | .ok sitemapIndex =>
          indexLoop recur (List.replicate sitemapIndex.Sitemaps.length "") 0
            sitemapIndex.Sitemaps

/-- `parseSitemap`, fuelled: fuel `n + 1` runs one step whose recursive
calls get fuel `n`.  Every theorem below quantifies over the fuel, so no
statement depends on the artificial bound. -/
def parseSitemap (env : REnv) : Nat → String → Except RErr (List String)
  | 0 => fun _ => .error .fuelExhausted
  | fuel + 1 => parseStep env (parseSitemap env fuel)

/-! ### Concrete environments used by witnesses and counterexamples -/

deriving instance DecidableEq for Except

/-- A resolver world: `root` is an index of the leaf children `A` (one URL
`/x`) and `B` (one URL `/y`); `leafboth` is a document carrying both a
non-empty `url` list and a `sitemap` list; `emptydoc` is an index with zero
children; `badxml` is a body the XML decoder rejects; `failroot` is an index
whose second child is `badxml`.  Fetching returns the requested address as
the body. -/
def exREnv : REnv where
  fetchR u := .ok u
  unmarshal b :=
    if b = "root" then .ok ⟨[], [⟨"A"⟩, ⟨"B"⟩]⟩
    else if b = "A" then .ok ⟨[⟨"/x"⟩], []⟩
    else if b = "B" then .ok ⟨[⟨"/y"⟩], []⟩
    else if b = "leafboth" then .ok ⟨[⟨"/a"⟩, ⟨"/b"⟩, ⟨"/c"⟩], [⟨"A"⟩, ⟨"B"⟩]⟩
    else if b = "emptydoc" then .ok ⟨[], []⟩
    else if b = "failroot" then .ok ⟨[], [⟨"A"⟩, ⟨"badxml"⟩, ⟨"never"⟩]⟩
    else .error "EOF"

/-- A locator world for the robots-declared case: `example.com` resolves,
and its robots file declares a sitemap on its second line. -/
def exLEnvRobots : LEnv where
  urlParse s := if s = "http://example.com" then some ⟨"example.com"⟩ else none
  fetchL u :=
    if u = "https://example.com/robots.txt" then
      .ok ⟨200, .ok "User-agent: *\nSitemap: https://example.com/s1.xml"⟩
    else .error "no network"

/-- A locator world for candidate probing: the robots file exists (200) but
declares nothing, the first two candidates answer 404, and the third
candidate `/sitemap1.xml` answers 200. -/
def exLEnvProbe : LEnv where
  urlParse s := if s = "http://example.org" then some ⟨"example.org"⟩ else none
  fetchL u :=
    if u = "https://example.org/robots.txt" then .ok ⟨200, .ok "User-agent: *"⟩
    else if u = "https://example.org/test.xml" then .ok ⟨404, .error "unread"⟩
    else if u = "https://example.org/sitemap.xml" then .ok ⟨404, .error "unread"⟩
    else if u = "https://example.org/sitemap1.xml" then .ok ⟨200, .ok ""⟩
    else .error "no network"

/-- A locator world reproducing Go's `url.Parse` on `http:///foo` and
`https:///foo`: both parse successfully with an empty `Host` (the authority
between `//` and the path is empty). -/
def exLEnvScheme : LEnv where
  urlParse s :=
    if s = "http:///foo" then some ⟨""⟩
    else if s = "https:///foo" then some ⟨""⟩
    else none
  fetchL _ := .error "no network"

/-- A locator world where `example.net` parses under both schemes (with the
same host, as Go's `url.Parse` guarantees) and its robots file declares a
sitemap. -/
def exLEnvScheme2 : LEnv where
  urlParse s :=
    if s = "http://example.net" then some ⟨"example.net"⟩
    else if s = "https://example.net" then some ⟨"example.net"⟩
    else none
  fetchL u :=
    if u = "https://example.net/robots.txt" then
      .ok ⟨200, .ok "Sitemap: https://example.net/s.xml"⟩
    else .error "no network"

/-- A locator world whose URL parser rejects everything. -/
def exLEnvInvalid : LEnv where
  urlParse _ := none
  fetchL _ := .error "no network"

/-- The two children of the `root` index of `exREnv`. -/
def exChildren : List SitemapSitemap := [⟨"A"⟩, ⟨"B"⟩]

/-- The resolved URL lists of `exREnv`'s children `A` and `B`. -/
def exRes : String → List String :=
  fun l => if l = "A" then ["/x"] else ["/y"]

/-! ### Helper lemmas on the Go string helpers -/

/-- A string is a prefix of itself followed by anything. -/
theorem goHasPfx_self_append (p s : String) : goHasPfx (p ++ s) p = true := by
  unfold goHasPfx
  rw [String.data_append]
  exact List.isPrefixOf_iff_prefix.mpr (List.prefix_append _ _)

/-- Trimming a present prefix leaves exactly the suffix. -/
theorem goTrimPfx_self_append (p s : String) : goTrimPfx (p ++ s) p = s := by
  unfold goTrimPfx
  rw [goHasPfx_self_append]
  simp only [if_true, String.data_append, List.drop_left]

/-- A string of the shape `http://...` is never empty. -/
theorem http_append_ne_empty (d : String) : ("http://" ++ d) ≠ "" :=
  fun h => List.noConfusion (congrArg String.data h)

/-- A string of the shape `https://...` is never empty. -/
theorem https_append_ne_empty (d : String) : ("https://" ++ d) ≠ "" :=
  fun h => List.noConfusion (congrArg String.data h)

/-- `robotsLines` returns the trimmed remainder of the first line carrying
the `Sitemap:` marker, ignoring every earlier line. -/
theorem robotsLines_first :
    ∀ (pre : List String) (addr : String) (post : List String),
      (∀ l ∈ pre, goHasPfx l "Sitemap:" = false) →
      robotsLines (pre ++ ("Sitemap: " ++ addr) :: post) = addr := by
  intro pre
  induction pre with
  | nil =>
    intro addr post _
    show robotsLines (("Sitemap: " ++ addr) :: post) = addr
    have h1 : goHasPfx ("Sitemap: " ++ addr) "Sitemap:" = true := by
      show goHasPfx ("Sitemap:" ++ (" " ++ addr)) "Sitemap:" = true
      exact goHasPfx_self_append _ _
    simp only [robotsLines, h1, if_true]
    exact goTrimPfx_self_append _ _
  | cons l ls ih =>
    intro addr post hpre
    have h1 : goHasPfx l "Sitemap:" = false := hpre l (by simp)
    simp only [List.cons_append, robotsLines, h1, Bool.false_eq_true, if_false]
    exact ih addr post (fun x hx => hpre x (by simp [hx]))

/-! ### Helper lemmas on the locator -/

/-- Candidates answering a non-200 status (with no request error) are
skipped: the loop continues behind them, their URLs logged in order. -/
theorem probeLoop_skip (env : LEnv) (host : String) :
    ∀ (pre rest : List String),
      (∀ loc ∈ pre, ∃ r, env.fetchL ("https://" ++ host ++ loc) = .ok r ∧
        r.statusCode ≠ 200) →
      probeLoop env host (pre ++ rest) =
        ((probeLoop env host rest).1,
          pre.map (fun loc => "https://" ++ host ++ loc) ++
            (probeLoop env host rest).2) := by
  intro pre
  induction pre with
  | nil => intro rest _; simp
  | cons l ls ih =>
    intro rest hpre
    obtain ⟨r, hr, hs⟩ := hpre l (by simp)
    have hs2 : (r.statusCode == 200) = false := by
      simpa using hs
    simp only [List.cons_append, probeLoop, hr, hs2, Bool.false_eq_true,
      if_false, List.map_cons, List.append_eq]
    rw [ih rest (fun x hx => hpre x (by simp [hx]))]

/-! ### Helper lemmas on the resolver -/

/-- One fuel step of the resolver is one unfolding of the loop body. -/
theorem parseSitemap_succ (env : REnv) (fuel : Nat) (url : String) :
    parseSitemap env (fuel + 1) url =
      parseStep env (parseSitemap env fuel) url := rfl

/-- If every child before `c` resolves and `c` itself fails, the index loop
fails with exactly `c`'s error, whatever the accumulator, the slot index and
the children behind `c` are. -/
theorem indexLoop_error (recur : String → Except RErr (List String))
    (c : SitemapSitemap) (e : RErr) (hc : recur c.Loc = .error e) :
    ∀ (pre : List SitemapSitemap) (post : List SitemapSitemap)
      (urls : List String) (i : Nat),
      (∀ s ∈ pre, ∃ r, recur s.Loc = .ok r) →
      indexLoop recur urls i (pre ++ c :: post) = .error e := by
  intro pre
  induction pre with
  | nil =>
    intro post urls i _
    simp [indexLoop, hc]
  | cons s ss ih =>
    intro post urls i hpre
    obtain ⟨r, hr⟩ := hpre s (by simp)
    simp only [List.cons_append, indexLoop, hr]
    exact ih post _ _ (fun x hx => hpre x (by simp [hx]))

/-- The invariant of the index loop: starting from `M` allocated slots
already holding their markers, `cs.length` still-blank slots and a tail `T`,
a run over `cs` whose children all resolve produces the markers of `cs`
behind `M` and the children's URL lists appended behind `T`. -/
theorem indexLoop_ok (recur : String → Except RErr (List String))
    (res : String → List String) :
    ∀ (cs : List SitemapSitemap) (M T : List String),
      (∀ s ∈ cs, recur s.Loc = .ok (res s.Loc)) →
      indexLoop recur (M ++ (List.replicate cs.length "" ++ T)) M.length cs =
        .ok ((M ++ cs.map (fun s => "Sitemap index: " ++ s.Loc)) ++
          (T ++ (cs.map (fun s => res s.Loc)).flatten)) := by
  intro cs
  induction cs with
  | nil =>
    intro M T _
    simp [indexLoop]
  | cons s ss ih =>
    intro M T h
    have hs : recur s.Loc = .ok (res s.Loc) := h s (by simp)
    have hset : (M ++ (List.replicate (s :: ss).length "" ++ T)).set M.length
        ("Sitemap index: " ++ s.Loc) =
        M ++ (("Sitemap index: " ++ s.Loc) :: (List.replicate ss.length "" ++ T)) := by
      rw [List.set_append_right _ _ (Nat.le_refl M.length)]
      simp [List.replicate_succ]
    simp only [indexLoop, hs, hset]
    have hstep := ih (M ++ ["Sitemap index: " ++ s.Loc]) (T ++ res s.Loc)
      (fun x hx => h x (by simp [hx]))
    simp only [List.length_append, List.length_singleton] at hstep
    calc indexLoop recur
          ((M ++ (("Sitemap index: " ++ s.Loc) :: (List.replicate ss.length "" ++ T))) ++
            res s.Loc) (M.length + 1) ss
        = indexLoop recur
            ((M ++ ["Sitemap index: " ++ s.Loc]) ++
              (List.replicate ss.length "" ++ (T ++ res s.Loc)))
            (M.length + 1) ss := by
          simp [List.append_assoc]
      _ = .ok (((M ++ ["Sitemap index: " ++ s.Loc]) ++
            ss.map (fun x => "Sitemap index: " ++ x.Loc)) ++
            ((T ++ res s.Loc) ++ (ss.map (fun x => res x.Loc)).flatten)) := hstep
      _ = .ok ((M ++ (s :: ss).map (fun x => "Sitemap index: " ++ x.Loc)) ++
            (T ++ ((s :: ss).map (fun x => res x.Loc)).flatten)) := by
          simp [List.append_assoc]

/-- What one resolver step returns on an index document (leaf list empty)
whose children all resolve: all markers in document order, then all
children's URL lists concatenated in document order.  Shared by the
index-shape theorems below. -/
theorem parseSitemap_index_eq (env : REnv) (fuel : Nat) (url body : String)
    (cs : List SitemapSitemap) (res : String → List String)
    (hf : env.fetchR url = .ok body)
    (hu : env.unmarshal body = .ok ⟨[], cs⟩)
    (hchild : ∀ s ∈ cs, parseSitemap env fuel s.Loc = .ok (res s.Loc)) :
    parseSitemap env (fuel + 1) url =
      .ok (cs.map (fun s => "Sitemap index: " ++ s.Loc) ++
        (cs.map (fun s => res s.Loc)).flatten) := by
  rw [parseSitemap_succ]
  simp only [parseStep, hf, hu]
  simp only [List.length_nil, gt_iff_lt, lt_self_iff_false, if_false]
  have h := indexLoop_ok (parseSitemap env fuel) res cs [] [] hchild
  simpa using h

/-! ## Claims -/

/-- C2 (confirmed): a fetched document whose parsed leaf-URL list is
non-empty resolves to exactly those `loc` strings, verbatim and in document
order; child-sitemap entries present in the same document are ignored, and
no recursion happens (the conclusion holds for every remaining fuel, even
zero, so no recursive resolution is consulted). -/
theorem resolve_leaf_verbatim (env : REnv) (fuel : Nat) (url body : String)
    (sm : Sitemap) (hf : env.fetchR url = .ok body)
    (hu : env.unmarshal body = .ok sm) (hne : sm.URLs ≠ []) :
    parseSitemap env (fuel + 1) url = .ok (sm.URLs.map SitemapURL.Loc) := by
  have hlen : sm.URLs.length > 0 := List.length_pos.mpr hne
  rw [parseSitemap_succ]
  simp [parseStep, hf, hu, hlen]

/-- Witness for C2: a document with leaf URLs `/a`, `/b`, `/c` and two
child-sitemap entries resolves to exactly the leaf URLs with no fuel left
for recursion. -/
theorem resolve_leaf_verbatim_witness :
    parseSitemap exREnv 1 "leafboth" = .ok ["/a", "/b", "/c"] :=
  resolve_leaf_verbatim exREnv 0 "leafboth" "leafboth"
    ⟨[⟨"/a"⟩, ⟨"/b"⟩, ⟨"/c"⟩], [⟨"A"⟩, ⟨"B"⟩]⟩ rfl rfl (by decide)

/-- C7 (confirmed): a body the XML decoder rejects makes the resolver fail
with that decoding error (the spec's `ParseFailed`); being a total function
it neither panics nor returns an empty success. -/
theorem resolve_malformed_parse_error (env : REnv) (fuel : Nat)
    (url body e : String) (hf : env.fetchR url = .ok body)
    (hu : env.unmarshal body = .error e) :
    parseSitemap env (fuel + 1) url = .error (.parseFailed e) := by
  rw [parseSitemap_succ]
  simp [parseStep, hf, hu]

/-- Witness for C7: the body `badxml` is rejected by the decoder and
resolution fails with `parseFailed`. -/
theorem resolve_malformed_parse_error_witness :
    parseSitemap exREnv 1 "badxml" = .error (.parseFailed "EOF") :=
  resolve_malformed_parse_error exREnv 0 "badxml" "badxml" "EOF" rfl rfl

/-- C8 (confirmed): a successfully fetched and parsed document with both
lists empty (an index declaring zero children) resolves to the empty list
with no error. -/
theorem resolve_empty_index (env : REnv) (fuel : Nat) (url body : String)
    (hf : env.fetchR url = .ok body)
    (hu : env.unmarshal body = .ok ⟨[], []⟩) :
    parseSitemap env (fuel + 1) url = .ok [] := by
  rw [parseSitemap_succ]
  simp [parseStep, hf, hu, indexLoop]

/-- Witness for C8 at the concrete empty document. -/
theorem resolve_empty_index_witness :
    parseSitemap exREnv 1 "emptydoc" = .ok [] :=
  resolve_empty_index exREnv 0 "emptydoc" "emptydoc" rfl rfl

/-- C9 (confirmed): if some child of an index fails to resolve while every
earlier child succeeds, the whole resolution fails with exactly that child's
error.  No hypothesis at all is made about the children behind the failing
one — the result is the same whatever they are, so they are never
resolved — and no partial result is returned. -/
theorem resolve_child_error_propagates (env : REnv) (fuel : Nat)
    (url body : String) (pre : List SitemapSitemap) (c : SitemapSitemap)
    (post : List SitemapSitemap) (e : RErr)
    (hf : env.fetchR url = .ok body)
    (hu : env.unmarshal body = .ok ⟨[], pre ++ c :: post⟩)
    (hpre : ∀ s ∈ pre, ∃ r, parseSitemap env fuel s.Loc = .ok r)
    (hc : parseSitemap env fuel c.Loc = .error e) :
    parseSitemap env (fuel + 1) url = .error e := by
  rw [parseSitemap_succ]
  simp only [parseStep, hf, hu]
  simp only [List.length_nil, gt_iff_lt, lt_self_iff_false, if_false]
  exact indexLoop_error (parseSitemap env fuel) c e hc pre post _ _ hpre

/-- Witness for C9: the index `failroot` has children `A` (resolves),
`badxml` (fails with `parseFailed`) and `never`; resolution fails with the
second child's error. -/
theorem resolve_child_error_propagates_witness :
    parseSitemap exREnv 2 "failroot" = .error (.parseFailed "EOF") :=
  resolve_child_error_propagates exREnv 1 "failroot" "failroot"
    [⟨"A"⟩] ⟨"badxml"⟩ [⟨"never"⟩] (.parseFailed "EOF") rfl rfl
    (by intro s hs
        rw [List.mem_singleton] at hs
        subst hs
        exact ⟨["/x"], rfl⟩)
    rfl

/-- C1 counterexample: in a world where the index `root` has the two leaf
children `A` (one URL `/x`) and `B` (one URL `/y`), both resolving
successfully, `parseSitemap` does not return the interleaved sequence
`[marker-for-A, /x, marker-for-B, /y]` the claim states (it returns
`[marker-for-A, marker-for-B, /x, /y]`: the markers are written into the
pre-allocated slots while the children's URLs are appended at the tail). -/
theorem c1_counterexample :
    parseSitemap exREnv 1 "A" = .ok ["/x"] ∧
    parseSitemap exREnv 1 "B" = .ok ["/y"] ∧
    parseSitemap exREnv 2 "root" ≠
      .ok ["Sitemap index: A", "/x", "Sitemap index: B", "/y"] := by
  refine ⟨rfl, rfl, ?_⟩
  decide

/-- C1 (corrected): an index sitemap (leaf list empty) whose children all
resolve successfully returns the synthetic markers of all children in
document order first, followed by the concatenation, in document order, of
the children's fully resolved URL lists. -/
theorem resolve_index_markers_then_urls (env : REnv) (fuel : Nat)
    (url body : String) (cs : List SitemapSitemap)
    (res : String → List String)
    (hf : env.fetchR url = .ok body)
    (hu : env.unmarshal body = .ok ⟨[], cs⟩)
    (hchild : ∀ s ∈ cs, parseSitemap env fuel s.Loc = .ok (res s.Loc)) :
    parseSitemap env (fuel + 1) url =
      .ok (cs.map (fun s => "Sitemap index: " ++ s.Loc) ++
        (cs.map (fun s => res s.Loc)).flatten) :=
  parseSitemap_index_eq env fuel url body cs res hf hu hchild

/-- Witness for the corrected C1: the two-child example yields both markers
first, then `/x` and `/y`. -/
theorem resolve_index_markers_then_urls_witness :
    parseSitemap exREnv 2 "root" =
      .ok ["Sitemap index: A", "Sitemap index: B", "/x", "/y"] :=
  resolve_index_markers_then_urls exREnv 1 "root" "root" exChildren exRes
    rfl rfl
    (by intro s hs
        rcases List.mem_cons.mp hs with h | h
        · subst h; rfl
        · rw [List.mem_singleton] at h; subst h; rfl)

/-- C10 (confirmed): for an index of `n` successfully resolving children the
result equals all `n` markers `Sitemap index: <child loc>` in document order
followed by the children's URL lists; its length is `n` plus the sum of the
children's list lengths; and — provided the markers are pairwise distinct
and no child's resolved list itself contains one of them — each child's
marker occurs exactly once. -/
theorem resolve_index_shape (env : REnv) (fuel : Nat) (url body : String)
    (cs : List SitemapSitemap) (res : String → List String)
    (hf : env.fetchR url = .ok body)
    (hu : env.unmarshal body = .ok ⟨[], cs⟩)
    (hchild : ∀ s ∈ cs, parseSitemap env fuel s.Loc = .ok (res s.Loc)) :
    (parseSitemap env (fuel + 1) url =
      .ok (cs.map (fun s => "Sitemap index: " ++ s.Loc) ++
        (cs.map (fun s => res s.Loc)).flatten)) ∧
    (cs.map (fun s => "Sitemap index: " ++ s.Loc) ++
        (cs.map (fun s => res s.Loc)).flatten).length =
      cs.length + (cs.map (fun s => (res s.Loc).length)).sum ∧
    ((cs.map (fun s => "Sitemap index: " ++ s.Loc)).Nodup →
      (∀ s ∈ cs, ∀ t ∈ cs, ("Sitemap index: " ++ s.Loc) ∉ res t.Loc) →
      ∀ s ∈ cs,
        (cs.map (fun x => "Sitemap index: " ++ x.Loc) ++
          (cs.map (fun x => res x.Loc)).flatten).count
          ("Sitemap index: " ++ s.Loc) = 1) := by
  refine ⟨parseSitemap_index_eq env fuel url body cs res hf hu hchild, ?_, ?_⟩
  · simp only [List.length_append, List.length_map, List.length_flatten,
      List.map_map]
    rfl
  · intro hnd hfresh s hs
    rw [List.count_append]
    have h1 : (cs.map (fun x => "Sitemap index: " ++ x.Loc)).count
        ("Sitemap index: " ++ s.Loc) = 1 :=
      List.count_eq_one_of_mem hnd
        (List.mem_map_of_mem (fun x => "Sitemap index: " ++ x.Loc) hs)
    have h2 : ((cs.map (fun x => res x.Loc)).flatten).count
        ("Sitemap index: " ++ s.Loc) = 0 := by
      rw [List.count_eq_zero]
      intro hmem
      obtain ⟨l, hl, hml⟩ := List.mem_flatten.mp hmem
      obtain ⟨t, ht, rfl⟩ := List.mem_map.mp hl
      exact hfresh s hs t ht hml
    rw [h1, h2]

/-- Witness for C10 at the two-child example: the shape, the length
equation `4 = 2 + 2`, and the marker count. -/
theorem resolve_index_shape_witness :
    (parseSitemap exREnv 2 "root" =
      .ok (exChildren.map (fun s => "Sitemap index: " ++ s.Loc) ++
        (exChildren.map (fun s => exRes s.Loc)).flatten)) ∧
    (exChildren.map (fun s => "Sitemap index: " ++ s.Loc) ++
        (exChildren.map (fun s => exRes s.Loc)).flatten).length =
      exChildren.length +
        (exChildren.map (fun s => (exRes s.Loc).length)).sum ∧
    ((exChildren.map (fun s => "Sitemap index: " ++ s.Loc)).Nodup →
      (∀ s ∈ exChildren, ∀ t ∈ exChildren,
        ("Sitemap index: " ++ s.Loc) ∉ exRes t.Loc) →
      ∀ s ∈ exChildren,
        (exChildren.map (fun x => "Sitemap index: " ++ x.Loc) ++
          (exChildren.map (fun x => exRes x.Loc)).flatten).count
          ("Sitemap index: " ++ s.Loc) = 1) :=
  resolve_index_shape exREnv 1 "root" "root" exChildren exRes rfl rfl
    (by intro s hs
        rcases List.mem_cons.mp hs with h | h
        · subst h; rfl
        · rw [List.mem_singleton] at h; subst h; rfl)

/-- C6 (confirmed): an input that, after the optional scheme normalization,
does not parse to a URL with a non-empty host (covering both a parse failure
and an empty `Host`) makes the locator fail with the validation error — the
spec's `InvalidDomain` — and the request trace is empty: no network access
happens. -/
theorem locate_invalid_rejected (env : LEnv) (domain : String)
    (h : ∀ u, env.urlParse (normalizeScheme domain) = some u → u.Host = "") :
    getSitemapURLFromDomain env domain =
      (.error ("Failed to validate " ++ domain), []) := by
  have hv : isValidDomain env domain = false := by
    unfold isValidDomain
    by_cases hd : domain = ""
    · simp [hd]
    · rw [if_neg hd]
      cases hp : env.urlParse (normalizeScheme domain) with
      | none => rfl
      | some u => simp [h u hp]
  simp [getSitemapURLFromDomain, hv]

/-- Witness for C6: a world whose URL parser rejects everything rejects the
input before any fetch. -/
theorem locate_invalid_rejected_witness :
    getSitemapURLFromDomain exLEnvInvalid "%%bad%%" =
      (.error ("Failed to validate " ++ "%%bad%%"), []) :=
  locate_invalid_rejected exLEnvInvalid "%%bad%%" (fun u h => nomatch h)

/-- C3 (confirmed): when the robots fetch returns status 200 and the body,
split on newlines, has as its first `Sitemap:`-marked line one of the shape
`Sitemap: <addr>` with `addr` non-empty, the locator returns `addr` — the
line's remainder after the marker and the one following space — and the
trace holds exactly the robots URL: zero candidate probes were issued. -/
theorem locate_robots_declared (env : LEnv) (domain body addr : String)
    (resp : GoResp) (pre post : List String)
    (hvalid : isValidDomain env domain = true)
    (hfetch : env.fetchL ("https://" ++ extractDomain env domain ++
      "/robots.txt") = .ok resp)
    (hstatus : resp.statusCode = 200)
    (hbody : resp.readBody = .ok body)
    (hsplit : splitNl body.data = pre ++ ("Sitemap: " ++ addr) :: post)
    (hpre : ∀ l ∈ pre, goHasPfx l "Sitemap:" = false)
    (hne : addr ≠ "") :
    getSitemapURLFromDomain env domain =
      (.ok addr,
        ["https://" ++ extractDomain env domain ++ "/robots.txt"]) := by
  have hparse : parseSitemapFromRobotsTxt body = addr := by
    unfold parseSitemapFromRobotsTxt
    rw [hsplit]
    exact robotsLines_first pre addr post hpre
  simp [getSitemapURLFromDomain, hvalid, locateFromHost, hfetch, hstatus,
    hbody, hparse, hne]

/-- Witness for C3: a robots body declaring a sitemap on its second line is
honoured with a single request in the trace. -/
theorem locate_robots_declared_witness :
    getSitemapURLFromDomain exLEnvRobots "example.com" =
      (.ok "https://example.com/s1.xml", ["https://example.com/robots.txt"]) :=
  locate_robots_declared exLEnvRobots "example.com"
    "User-agent: *\nSitemap: https://example.com/s1.xml"
    "https://example.com/s1.xml"
    ⟨200, .ok "User-agent: *\nSitemap: https://example.com/s1.xml"⟩
    ["User-agent: *"] [] (by decide) rfl rfl rfl (by decide) (by decide)
    (by decide)

/-- C4 (confirmed): entering candidate probing (robots answered 200 with no
declared sitemap), with every candidate before `c` answering some non-200
status: if `c` answers 200 the locator returns `c`'s constructed URL and the
trace stops at `c` — no further probes; if instead the request to `c` fails
at the transport level, the whole probe aborts with exactly that error (the
spec's `FetchFailed`) rather than advancing past `c`. -/
theorem locate_candidate_probing (env : LEnv) (domain body : String)
    (resp : GoResp) (pre : List String) (c : String) (post : List String)
    (hvalid : isValidDomain env domain = true)
    (hfetch : env.fetchL ("https://" ++ extractDomain env domain ++
      "/robots.txt") = .ok resp)
    (hstatus : resp.statusCode = 200)
    (hbody : resp.readBody = .ok body)
    (hnone : parseSitemapFromRobotsTxt body = "")
    (hlist : sitemapLocations = pre ++ c :: post)
    (hpre : ∀ loc ∈ pre, ∃ r,
      env.fetchL ("https://" ++ extractDomain env domain ++ loc) = .ok r ∧
        r.statusCode ≠ 200) :
    (∀ rc, env.fetchL ("https://" ++ extractDomain env domain ++ c) = .ok rc →
      rc.statusCode = 200 →
      getSitemapURLFromDomain env domain =
        (.ok ("https://" ++ extractDomain env domain ++ c),
          ("https://" ++ extractDomain env domain ++ "/robots.txt") ::
            (pre.map (fun loc => "https://" ++ extractDomain env domain ++ loc) ++
              ["https://" ++ extractDomain env domain ++ c]))) ∧
    (∀ e, env.fetchL ("https://" ++ extractDomain env domain ++ c) = .error e →
      getSitemapURLFromDomain env domain =
        (.error e,
          ("https://" ++ extractDomain env domain ++ "/robots.txt") ::
            (pre.map (fun loc => "https://" ++ extractDomain env domain ++ loc) ++
              ["https://" ++ extractDomain env domain ++ c]))) := by
  have hmain : getSitemapURLFromDomain env domain =
      ((probeLoop env (extractDomain env domain) sitemapLocations).1,
        ("https://" ++ extractDomain env domain ++ "/robots.txt") ::
          (probeLoop env (extractDomain env domain) sitemapLocations).2) := by
    simp [getSitemapURLFromDomain, hvalid, locateFromHost, hfetch, hstatus,
      hbody, hnone]
  constructor
  · intro rc hrc h200
    have h200b : (rc.statusCode == 200) = true := by simp [h200]
    have hc : probeLoop env (extractDomain env domain) (c :: post) =
        (.ok ("https://" ++ extractDomain env domain ++ c),
          ["https://" ++ extractDomain env domain ++ c]) := by
      simp [probeLoop, hrc, h200b]
    rw [hmain, hlist,
      probeLoop_skip env (extractDomain env domain) pre (c :: post) hpre, hc]
  · intro e he
    have hc : probeLoop env (extractDomain env domain) (c :: post) =
        (.error e, ["https://" ++ extractDomain env domain ++ c]) := by
      simp [probeLoop, he]
    rw [hmain, hlist,
      probeLoop_skip env (extractDomain env domain) pre (c :: post) hpre, hc]

/-- Witness for C4: the robots file of `example.org` declares nothing, the
first two candidates answer 404, the third (`/sitemap1.xml`) answers 200;
the locator returns the third candidate's URL and the trace stops there. -/
theorem locate_candidate_probing_witness :
    getSitemapURLFromDomain exLEnvProbe "example.org" =
      (.ok ("https://" ++ extractDomain exLEnvProbe "example.org" ++
        "/sitemap1.xml"),
        ("https://" ++ extractDomain exLEnvProbe "example.org" ++
          "/robots.txt") ::
          ((["/test.xml", "/sitemap.xml"] : List String).map
            (fun loc => "https://" ++ extractDomain exLEnvProbe "example.org" ++ loc) ++
            ["https://" ++ extractDomain exLEnvProbe "example.org" ++
              "/sitemap1.xml"])) :=
  (locate_candidate_probing exLEnvProbe "example.org" "User-agent: *"
    ⟨200, .ok "User-agent: *"⟩ ["/test.xml", "/sitemap.xml"] "/sitemap1.xml"
    (sitemapLocations.drop 3) (by decide) rfl rfl rfl (by decide) rfl
    (by intro loc hloc
        rcases List.mem_cons.mp hloc with h | h
        · subst h; exact ⟨⟨404, .error "unread"⟩, rfl, by decide⟩
        · rw [List.mem_singleton] at h
          subst h; exact ⟨⟨404, .error "unread"⟩, rfl, by decide⟩)).1
    ⟨200, .ok ""⟩ rfl rfl

/-- C5 counterexample: `/foo` lacks a scheme, and in a world reproducing
Go's `url.Parse` on `http:///foo` and `https:///foo` (both parse with an
empty host), the locator's result on `/foo` differs from its result on the
scheme-prepended variants: the validation errors embed the different raw
inputs (`Failed to validate /foo` versus `Failed to validate http:///foo`),
so the behaviours are not identical. -/
theorem c5_counterexample :
    goHasPfx "/foo" "http://" = false ∧ goHasPfx "/foo" "https://" = false ∧
    getSitemapURLFromDomain exLEnvScheme "/foo" ≠
      getSitemapURLFromDomain exLEnvScheme ("http://" ++ "/foo") ∧
    getSitemapURLFromDomain exLEnvScheme "/foo" ≠
      getSitemapURLFromDomain exLEnvScheme ("https://" ++ "/foo") := by
  decide

/-- C5 (corrected): for a scheme-less domain string that passes validation,
the locator behaves identically — same result and same trace — to the same
string with `http://` prepended, and, provided the URL parser extracts the
same host under both schemes (as Go's does), also to the same string with
`https://` prepended.  (When validation fails the two calls still both fail
before any network access, but with error messages embedding the different
raw inputs, as the counterexample shows.) -/
theorem locate_scheme_agnostic (env : LEnv) (d : String)
    (h1 : goHasPfx d "http://" = false) (h2 : goHasPfx d "https://" = false)
    (hvalid : isValidDomain env d = true)
    (hscheme : (env.urlParse ("http://" ++ d)).map GoURL.Host =
      (env.urlParse ("https://" ++ d)).map GoURL.Host) :
    getSitemapURLFromDomain env d =
      getSitemapURLFromDomain env ("http://" ++ d) ∧
    getSitemapURLFromDomain env d =
      getSitemapURLFromDomain env ("https://" ++ d) := by
  have hd : d ≠ "" := by
    intro hde
    subst hde
    simp [isValidDomain] at hvalid
  have hnorm : normalizeScheme d = "http://" ++ d := by
    unfold normalizeScheme
    rw [h1, h2]
    rfl
  have hnormh : normalizeScheme ("http://" ++ d) = "http://" ++ d := by
    unfold normalizeScheme
    rw [goHasPfx_self_append]
    rfl
  have hnorms : normalizeScheme ("https://" ++ d) = "https://" ++ d := by
    unfold normalizeScheme
    rw [goHasPfx_self_append "https://" d]
    simp
  obtain ⟨u, hp, hu⟩ : ∃ u, env.urlParse ("http://" ++ d) = some u ∧
      u.Host ≠ "" := by
    unfold isValidDomain at hvalid
    rw [if_neg hd, hnorm] at hvalid
    cases hp : env.urlParse ("http://" ++ d) with
    | none => rw [hp] at hvalid; exact absurd hvalid (by simp)
    | some u =>
      rw [hp] at hvalid
      exact ⟨u, rfl, by simpa using hvalid⟩
  obtain ⟨v, hps, hv⟩ : ∃ v, env.urlParse ("https://" ++ d) = some v ∧
      v.Host = u.Host := by
    rw [hp] at hscheme
    cases hps : env.urlParse ("https://" ++ d) with
    | none => rw [hps] at hscheme; exact absurd hscheme (by simp)
    | some v =>
      rw [hps] at hscheme
      exact ⟨v, rfl, (Option.some.inj hscheme).symm⟩
  have hvalidh : isValidDomain env ("http://" ++ d) = true := by
    unfold isValidDomain
    rw [if_neg (http_append_ne_empty d), hnormh, hp]
    simpa using hu
  have hvalids : isValidDomain env ("https://" ++ d) = true := by
    unfold isValidDomain
    rw [if_neg (https_append_ne_empty d), hnorms, hps]
    show (v.Host != "") = true
    rw [hv]
    simpa using hu
  have hexth : extractDomain env ("http://" ++ d) = extractDomain env d := by
    unfold extractDomain
    rw [if_neg (http_append_ne_empty d), if_neg hd, hnorm, hnormh]
  have hexts : extractDomain env ("https://" ++ d) = extractDomain env d := by
    unfold extractDomain
    rw [if_neg (https_append_ne_empty d), if_neg hd, hnorm, hnorms, hp, hps]
    exact hv
  constructor
  · simp [getSitemapURLFromDomain, hvalid, hvalidh, hexth]
  · simp [getSitemapURLFromDomain, hvalid, hvalids, hexts]

/-- Witness for the corrected C5: `example.net` (no scheme) is located
exactly like `http://example.net` and `https://example.net`. -/
theorem locate_scheme_agnostic_witness :
    getSitemapURLFromDomain exLEnvScheme2 "example.net" =
      getSitemapURLFromDomain exLEnvScheme2 ("http://" ++ "example.net") ∧
    getSitemapURLFromDomain exLEnvScheme2 "example.net" =
      getSitemapURLFromDomain exLEnvScheme2 ("https://" ++ "example.net") :=
  locate_scheme_agnostic exLEnvScheme2 "example.net" (by decide) (by decide)
    (by decide) (by decide)

end SitemapParser
